import Mathlib

/-!
Shallow embedding of the aideepspeak conversation-orchestration core:
the response cache (cache_manager.py), the model-invocation gateway and
its error-sentinel convention (ai_connectors.py), the timeout wrapper
(api_timeout.py), and the conversation manager's logging / termination /
closing logic (conversation_manager.py).  Python string operations
(str.strip, str.upper, str.split, substring membership) are embedded as
executable functions over character lists with the semantics of the
CPython operations used by the source.
-/

namespace AideepSpeak

/-- Characters treated as whitespace by Python's str.strip() / str.split()
for the ASCII inputs the program handles: space, tab, newline, carriage
return, vertical tab, form feed. -/
def isPySpace (c : Char) : Bool :=
  c = ' ' || c = '\t' || c = '\n' || c = '\r' || c = Char.ofNat 11 || c = Char.ofNat 12

/-- Embedding of Python str.strip() (no arguments): drop whitespace from
both ends. -/
def pyStrip (s : String) : String :=
  String.mk (((s.toList.dropWhile isPySpace).reverse.dropWhile isPySpace).reverse)

/-- Embedding of Python str.upper() for the ASCII strings handled here. -/
def pyUpper (s : String) : String :=
  String.mk (s.toList.map Char.toUpper)

/-- Check that the first list is an initial segment of the second. -/
def startsWithChars : List Char → List Char → Bool
  | [], _ => true
  | _ :: _, [] => false
  | a :: as, b :: bs => a == b && startsWithChars as bs

/-- Embedding of Python str.startswith(needle). -/
def pyStartsWith (hay needle : String) : Bool :=
  startsWithChars needle.toList hay.toList

/-- Embedding of Python str.endswith(needle). -/
def pyEndsWith (hay needle : String) : Bool :=
  startsWithChars needle.toList.reverse hay.toList.reverse

/-- Substring search over character lists. -/
def containsSubChars (needle : List Char) : List Char → Bool
  | [] => startsWithChars needle []
  | c :: cs => startsWithChars needle (c :: cs) || containsSubChars needle cs

/-- Embedding of Python `needle in hay` (substring containment). -/
def pyContains (needle hay : String) : Bool :=
  containsSubChars needle.toList hay.toList

/-- Count of maximal non-whitespace runs. -/
def wordCountChars : List Char → Bool → Nat
  | [], _ => 0
  | c :: cs, inWord =>
    if isPySpace c then wordCountChars cs false
    else (if inWord then 0 else 1) + wordCountChars cs true

/-- utils.approximate_word_count: len(text.split()), Python split() with
no separator counting maximal whitespace-delimited runs. -/
def approximate_word_count (s : String) : Nat :=
  wordCountChars s.toList false

/-- Split a character list at each newline, keeping empty pieces, as
Python str.split("\x5cn") does. -/
def splitNlChars : List Char → List (List Char)
  | [] => [[]]
  | c :: cs =>
    if c = '\n' then [] :: splitNlChars cs
    else
      match splitNlChars cs with
      | [] => [[c]]
      | g :: gs => (c :: g) :: gs

/-- Embedding of Python prompt_str.split("\x5cn"). -/
def pySplitNl (s : String) : List String :=
  (splitNlChars s.toList).map String.mk

/-- Embedding of Python "\x5cn".join(pieces). -/
def joinWithNl : List String → String
  | [] => ""
  | [s] => s
  | s :: rest => s ++ "\n" ++ joinWithNl rest

/-- Values appearing in the JSON-like usage-metadata dictionaries: ints,
strings, booleans, null, and rationals standing for Python floats. -/
inductive JVal where
  | jnum (n : Int)
  | jstr (s : String)
  | jbool (b : Bool)
  | jnull
  | jrat (q : ℚ)
deriving DecidableEq

/-- A usage-metadata dictionary: association list with unique keys. -/
def Usage : Type := List (String × JVal)

instance : DecidableEq Usage := by
  unfold Usage
  infer_instance

/-- Python dict.get(k): value of the first binding of k, if any. -/
def usageGet (u : Usage) (k : String) : Option JVal :=
  (u.find? (fun p => p.1 == k)).map Prod.snd

/-- Python dict update placing key k at value v (as in the merge
expression building the returned usage on a cache hit). -/
def usageSet (u : Usage) (k : String) (v : JVal) : Usage :=
  (u.filter (fun p => !(p.1 == k))) ++ [(k, v)]

/-- Python `usage_info.get('error') is not None`. -/
def usageHasError (u : Usage) : Bool :=
  match usageGet u "error" with
  | none => false
  | some JVal.jnull => false
  | some _ => true

/-! Response cache (cache_manager.py).  Wall-clock timestamps (Python
float seconds since the epoch) are modelled as rationals; the sha256
hex digest of the key material is modelled by the key material itself,
which preserves the only property the program relies on, namely that
equal inputs give equal digests. -/

/-- cache_manager.DEFAULT_EXPIRY_DAYS expressed in seconds:
timedelta(days=3) added to a timestamp. -/
def EXPIRY_SECONDS : ℚ := 259200

/-- One value of the entries table: CacheManager.set writes
prompt, model, response, usage_info, created_at, expires_at. -/
structure CacheEntry where
  prompt : String
  model : String
  response : String
  usage_info : Usage
  created_at : ℚ
  expires_at : ℚ
deriving DecidableEq

/-- The persisted cache document: cache_seed plus the entries table,
a dict from hash key to entry, modelled as an association list with
unique keys. -/
structure CacheData where
  cache_seed : Int
  entries : List (String × CacheEntry)
deriving DecidableEq

/-- Python `entries[key]` presence lookup: first binding of the key. -/
def entriesFind (es : List (String × CacheEntry)) (k : String) : Option CacheEntry :=
  (es.find? (fun p => p.1 == k)).map Prod.snd

namespace CacheManager

/-- CacheManager._normalize_prompt on a string prompt: strip each line,
rejoin with newlines, strip the result.  The dict branch of the source
extracts prompt['content'] first; the cache is always keyed on the plain
prompt text at its call sites, so the embedding takes the string. -/
def normalize_prompt (prompt : String) : String :=
  pyStrip (joinWithNl ((pySplitNl prompt).map pyStrip))

/-- CacheManager._generate_hash: the digest of
normalized_prompt ++ ":" ++ model_name ++ ":" ++ cache_seed, with the
sha256 hexdigest modelled by its preimage (equal inputs, equal keys). -/
def generate_hash (cache_seed : Int) (prompt : String) (model_name : String) : String :=
  normalize_prompt prompt ++ ":" ++ model_name ++ ":" ++ toString cache_seed

/-- Predicate of CacheManager._prune_expired marking an entry as an
error response: response text starting with "[" and containing "ERROR",
or a non-null 'error' field in the usage metadata. -/
def is_error_entry (e : CacheEntry) : Bool :=
  (pyStartsWith e.response "[" && pyContains "ERROR" e.response) || usageHasError e.usage_info

/-- CacheManager._prune_expired at current time `now`: keep only
entries that are neither expired (expires_at <= now) nor error
responses; return the new table and the pruned count. -/
def prune_expired (c : CacheData) (now : ℚ) : CacheData × Nat :=
  let valid := c.entries.filter (fun p =>
    !(decide (p.2.expires_at ≤ now)) && !(is_error_entry p.2))
  ({ c with entries := valid }, c.entries.length - valid.length)

/-- CacheManager.get at current time `now`: None if the key is absent
or the entry is not strictly unexpired; on a hit, the stored response
together with the stored usage metadata updated with cached = True. -/
def get (c : CacheData) (now : ℚ) (prompt model_name : String) :
    Option (String × Usage) :=
  match entriesFind c.entries (generate_hash c.cache_seed prompt model_name) with
  | some entry =>
    if now < entry.expires_at then
      some (entry.response, usageSet entry.usage_info "cached" (JVal.jbool true))
    else
      none
  | none => none

/-- CacheManager.set at current time `now`: overwrite the binding of the
key with a fresh entry expiring EXPIRY_SECONDS later. -/
def set (c : CacheData) (now : ℚ) (prompt model_name response : String)
    (usage_info : Usage) : CacheData :=
  let key := generate_hash c.cache_seed prompt model_name
  { c with entries :=
      (c.entries.filter (fun p => !(p.1 == key))) ++
        [(key, ⟨prompt, model_name, response, usage_info, now, now + EXPIRY_SECONDS⟩)] }

/-- CacheManager.delete: remove the binding of the key, if present. -/
def delete (c : CacheData) (prompt model_name : String) : CacheData :=
  let key := generate_hash c.cache_seed prompt model_name
  { c with entries := c.entries.filter (fun p => !(p.1 == key)) }

end CacheManager

/-! Model-invocation gateway (ai_connectors.py).  Network effects are
embedded as oracle parameters: a backend attempt either succeeds with a
(text, usage) pair or fails with an exception message, and the embedded
code is the deterministic handling the source applies to that outcome. -/

/-- The five backend variants dispatched by call_ai_model. -/
inductive Backend where
  | openai_gpt
  | claude
  | gemini
  | deepseek
  | ollama
deriving DecidableEq

/-- The logical model identifier of each backend, as dispatched on and
as written into the error sentinels. -/
def modelId : Backend → String
  | Backend.openai_gpt => "openai-gpt"
  | Backend.claude => "claude"
  | Backend.gemini => "gemini"
  | Backend.deepseek => "deepseek"
  | Backend.ollama => "ollama"

/-- The (response, usage) pair each backend's exception handler returns
for an exception rendered as `msg`: call_openai_gpt returns the sentinel
text with an empty usage dict; call_claude, call_gemini, call_deepseek
and call_ollama return the sentinel text with usage carrying the 'error'
message and a zero ttfb_seconds. -/
def backendErrorResult (b : Backend) (msg : String) : String × Usage :=
  match b with
  | Backend.openai_gpt => ("[openai-gpt ERROR]: " ++ msg, [])
  | Backend.claude =>
    ("[claude ERROR]: " ++ msg, [("error", JVal.jstr msg), ("ttfb_seconds", JVal.jnum 0)])
  | Backend.gemini =>
    ("[gemini ERROR]: " ++ msg, [("error", JVal.jstr msg), ("ttfb_seconds", JVal.jnum 0)])
  | Backend.deepseek =>
    ("[deepseek ERROR]: " ++ msg, [("error", JVal.jstr msg), ("ttfb_seconds", JVal.jnum 0)])
  | Backend.ollama =>
    ("[ollama ERROR]: " ++ msg, [("error", JVal.jstr msg), ("ttfb_seconds", JVal.jnum 0)])

/-- One backend invocation: the whole body of each call_* function is a
try/except, so a successful attempt returns its pair and a failing
attempt returns the handler's error result; nothing propagates. -/
def invokeBackend (b : Backend) (attempt : Except String (String × Usage)) :
    String × Usage :=
  match attempt with
  | Except.ok r => r
  | Except.error msg => backendErrorResult b msg

/-- The error test of call_ai_model (lines 398-403): Python parses
`a and b or c` as (a and b) or c, so a result is an error when the text
starts with "[" and contains "ERROR", or the usage carries a non-null
'error' field. -/
def is_error_response (response_text : String) (usage_info : Usage) : Bool :=
  (pyStartsWith response_text "[" && pyContains "ERROR" response_text) ||
    usageHasError usage_info

/-- The caching decision of call_ai_model after a backend call (lines
398-411), reached only when the preceding cache lookup missed: an
error-shaped result leaves the cache untouched, any other result is
stored. -/
def cacheAfterCall (c : CacheData) (now : ℚ) (prompt model_name : String)
    (response_text : String) (usage_info : Usage) : CacheData :=
  if is_error_response response_text usage_info then c
  else CacheManager.set c now prompt model_name response_text usage_info

/-- ai_connectors.decide_next_speaker, with the manager model's reply
text as an oracle parameter: the reply is stripped and, when it is not
exactly one of the roster names, the first roster name is substituted.
The source indexes character_names[0], which presupposes a non-empty
roster (an empty one would raise IndexError); the embedding totalizes
with headD. -/
def decide_next_speaker (character_names : List String) (response_text : String) :
    String :=
  let chosen_name := pyStrip response_text
  if character_names.contains chosen_name then chosen_name
  else character_names.headD ""

/-! Timeout wrapper (api_timeout.py). -/

/-- What call_with_timeout can produce for the caller: a returned value,
an exception propagating unchanged (the no-timeout path re-raises
nothing itself), or the TimeoutError the wrapper raises. -/
inductive CallResult where
  | ok (r : String × Usage)
  | exn (msg : String)
  | timeoutError (msg : String)
deriving DecidableEq

/-- api_timeout.call_with_timeout.  The wrapped call's outcome is the
oracle `attempt`; `elapsed_seconds` records how long the call took.  The
source never reads the elapsed time: the countdown runs on a separate
thread purely for terminal display, so the result depends only on the
outcome — when `timeout` is None or 0 the outcome passes through, and
otherwise a returned value passes through while an exception from the
wrapped call is re-raised as TimeoutError. -/
def call_with_timeout (timeout : Option Nat) (model_name : String)
    (elapsed_seconds : Nat) (attempt : Except String (String × Usage)) : CallResult :=
  let _ := elapsed_seconds
  match timeout with
  | none =>
    match attempt with
    | Except.ok r => CallResult.ok r
    | Except.error e => CallResult.exn e
  | some 0 =>
    match attempt with
    | Except.ok r => CallResult.ok r
    | Except.error e => CallResult.exn e
  | some (t + 1) =>
    match attempt with
    | Except.ok r => CallResult.ok r
    | Except.error _ =>
      CallResult.timeoutError
        ("API call to " ++ model_name ++ " timed out after " ++ toString (t + 1) ++ " seconds")

/-! Conversation manager (conversation_manager.py).  The mutable fields
of ConversationManager that the logging, termination and closing logic
touch are gathered into a state record; random draws (speaker pause,
duration jitter) and wall-clock timestamps are oracle parameters. -/

/-- data_structures.MessageLog. -/
structure MessageLog where
  timestamp : String
  sender : String
  message : String
  model_used : Option String
deriving DecidableEq

/-- The dict written to the JSON log file by ConversationManager.log_message:
model_used defaults to "" and usage_info is present only when supplied. -/
structure LogEntry where
  timestamp : String
  sender : String
  message : String
  model_used : String
  conversation_time : Option Nat
  usage_info : Option Usage
deriving DecidableEq

/-- The mutable state of a ConversationManager: the configured limits,
the running word count, the in-memory message list, the accumulated
usage totals and the synthesized conversation clock in milliseconds. -/
structure ConvState where
  max_words : Nat
  max_read_minutes : ℚ
  total_word_count : Nat
  messages : List MessageLog
  total_usage : List (String × Int)
  current_conversation_time : Nat
deriving DecidableEq

/-- ConversationManager.calculate_message_duration with the random
jitter factor given as the rational var_num / var_den (the source draws
uniform(0.85, 1.15)): 300 ms per word plus 500 ms per period and 200 ms
per comma, scaled by the jitter with Python int() truncation (floor on
these non-negative values, here Nat division), floored at 1000 ms. -/
def calculate_message_duration (message : String) (var_num var_den : Nat) : Nat :=
  let word_count := approximate_word_count message
  let base_duration := word_count * 300
  let punctuation_pauses :=
    (message.toList.count '.') * 500 + (message.toList.count ',') * 200
  max 1000 (((base_duration + punctuation_pauses) * var_num) / var_den)

/-- One step of ConversationManager._accumulate_usage for a single key:
add to an existing total or start one. -/
def bumpUsage (total : List (String × Int)) (k : String) (n : Int) :
    List (String × Int) :=
  if total.any (fun p => p.1 == k) then
    total.map (fun p => if p.1 == k then (p.1, p.2 + n) else p)
  else
    total ++ [(k, n)]

/-- ConversationManager._accumulate_usage: fold the usage dict into the
running totals, keeping only int values; Python's bool is a subclass of
int, so boolean values count as 0 or 1. -/
def accumulate_usage (total : List (String × Int)) (u : Usage) :
    List (String × Int) :=
  u.foldl
    (fun acc kv =>
      match kv.2 with
      | JVal.jnum n => bumpUsage acc kv.1 n
      | JVal.jbool b => bumpUsage acc kv.1 (if b then 1 else 0)
      | _ => acc)
    total

/-- ConversationManager.log_message.  Oracles: the wall-clock timestamp
string, the random speaker pause (source: randint(500, 2000), applied
only when a previous message exists) and the duration jitter as
var_num / var_den.  Senders starting with "SystemCheck" get no
conversation time and leave the clock alone; any other sender is stamped
with the clock after the pause and then advances it by the message
duration.  Returns the new state and the entry written to disk. -/
def log_message (st : ConvState) (sender message : String)
    (model_used : Option String) (usage_info : Option Usage)
    (timestamp : String) (pause : Nat) (var_num var_den : Nat) :
    ConvState × LogEntry :=
  let timing :=
    if pyStartsWith sender "SystemCheck" then
      (none, st.current_conversation_time)
    else
      let afterPause :=
        if st.messages.isEmpty then st.current_conversation_time
        else st.current_conversation_time + pause
      (some afterPause, afterPause + calculate_message_duration message var_num var_den)
  let msg_log : MessageLog := ⟨timestamp, sender, message, model_used⟩
  let entry : LogEntry :=
    ⟨timestamp, sender, message, model_used.getD "", timing.1, usage_info⟩
  let new_totals :=
    match usage_info with
    | some u => accumulate_usage st.total_usage u
    | none => st.total_usage
  ({ st with
      messages := st.messages ++ [msg_log]
      total_usage := new_totals
      current_conversation_time := timing.2
      total_word_count := st.total_word_count + approximate_word_count message },
    entry)

/-- ConversationManager.check_end_conditions with the manager model's
reply text and usage as oracles: the goal-check exchange is logged as a
SystemCheck entry and the verdict is whether "YES" occurs in the
upper-cased reply.  The method consults nothing else — in particular
neither total_word_count, max_words nor max_read_minutes. -/
def check_end_conditions (st : ConvState) (manager_model : String)
    (response_text : String) (usage : Option Usage)
    (timestamp : String) (pause : Nat) (var_num var_den : Nat) :
    Bool × ConvState :=
  let logged :=
    log_message st "SystemCheck" ("[Goal Check] " ++ response_text)
      (some manager_model) usage timestamp pause var_num var_den
  (pyContains "YES" (pyUpper response_text), logged.1)

/-- ConversationManager.determine_closing_message with the manager
model's reply text as an oracle (the SystemCheck logging of the exchange
is orthogonal to the returned value): None when "NO" occurs in the
upper-cased reply, otherwise the stripped reply when it is exactly a
roster name and None when it is not. -/
def determine_closing_message (character_names : List String)
    (response_text : String) : Option String :=
  if pyContains "NO" (pyUpper response_text) then none
  else
    let chosen_speaker := pyStrip response_text
    if character_names.contains chosen_speaker then some chosen_speaker
    else none

/-- ConversationManager.clean_closing_text: strip, remove one pair of
surrounding double or single quotes, strip again. -/
def clean_closing_text (text : String) : String :=
  let t := pyStrip text
  let dq := String.mk [Char.ofNat 34]
  let sq := String.mk [Char.ofNat 39]
  let t2 :=
    if (pyStartsWith t dq && pyEndsWith t dq) || (pyStartsWith t sq && pyEndsWith t sq) then
      String.mk (t.toList.drop 1).dropLast
    else t
  pyStrip t2

/-- The closing step of ConversationManager.run_conversation (lines
377-409), with the closing-check reply and the generated closing text as
oracles: when determine_closing_message yields no name, nothing is
generated or appended and the state is returned unchanged; when it
yields a roster name, that character's cleaned closing line is logged. -/
def closing_phase (st : ConvState) (character_names : List String)
    (closing_check_response : String) (closer_model : String)
    (closing_text : String) (usage : Option Usage)
    (timestamp : String) (pause : Nat) (var_num var_den : Nat) : ConvState :=
  match determine_closing_message character_names closing_check_response with
  | none => st
  | some closer_name =>
    (log_message st closer_name (clean_closing_text closing_text)
      (some closer_model) usage timestamp pause var_num var_den).1

/-- ConversationManager._log_usage_summary: the final summary entry is
logged with sender "System" (not "SystemCheck") and model_used "None". -/
def log_usage_summary (st : ConvState) (summary : String)
    (timestamp : String) (pause : Nat) (var_num var_den : Nat) :
    ConvState × LogEntry :=
  log_message st "System" summary (some "None") none timestamp pause var_num var_den

/-! Theorems. -/

/-- The synthesized duration of any message is at least the 1000 ms floor. -/
theorem thousand_le_message_duration (message : String) (var_num var_den : Nat) :
    1000 ≤ calculate_message_duration message var_num var_den :=
  le_max_left _ _

/-- C1: check_end_conditions is supposed to return true once the
cumulative word count reaches max_words, without a model call; the
method as written consults only the manager model's YES/NO answer, so
with max_words = 10 and a cumulative count of 12 a "NO" answer still
yields false — and in general the verdict is exactly the occurrence of
"YES" in the upper-cased reply, whatever the state holds. -/
theorem check_end_conditions_ignores_word_limit :
    (∀ (st : ConvState) (manager_model response_text : String)
       (usage : Option Usage) (timestamp : String) (pause var_num var_den : Nat),
       (check_end_conditions st manager_model response_text usage
          timestamp pause var_num var_den).1
         = pyContains "YES" (pyUpper response_text)) ∧
    (check_end_conditions ⟨10, 7, 12, [], [], 0⟩ "claude" "NO" none "t" 500 1 1).1
      = false :=
  ⟨fun _ _ _ _ _ _ _ _ => rfl, by decide⟩

/-- C2: prompts equal after normalization produce the same cache key,
hence the same lookup result, for the same model and seed. -/
theorem cache_lookup_respects_normalization (c : CacheData) (now : ℚ)
    (p1 p2 model_name : String)
    (h : CacheManager.normalize_prompt p1 = CacheManager.normalize_prompt p2) :
    CacheManager.generate_hash c.cache_seed p1 model_name
      = CacheManager.generate_hash c.cache_seed p2 model_name ∧
    CacheManager.get c now p1 model_name = CacheManager.get c now p2 model_name := by
  have hk : CacheManager.generate_hash c.cache_seed p1 model_name
      = CacheManager.generate_hash c.cache_seed p2 model_name := by
    unfold CacheManager.generate_hash
    rw [h]
  refine ⟨hk, ?_⟩
  unfold CacheManager.get
  rw [hk]

/-- Witness for C2 at a per-line-whitespace variant of a two-line prompt. -/
theorem cache_lookup_respects_normalization_witness :
    CacheManager.generate_hash 69 "  hello \n world  " "m"
      = CacheManager.generate_hash 69 "hello\nworld" "m" ∧
    CacheManager.get ⟨69, []⟩ 0 "  hello \n world  " "m"
      = CacheManager.get ⟨69, []⟩ 0 "hello\nworld" "m" :=
  cache_lookup_respects_normalization ⟨69, []⟩ 0 "  hello \n world  " "hello\nworld" "m"
    (by decide)

/-- C3: an error-shaped backend result (reached only after a cache miss)
is not stored, so the lookup still misses afterwards, and the pruning
pass leaves no error-shaped entry in the table. -/
theorem error_responses_never_cached (c : CacheData) (now : ℚ)
    (prompt model_name response_text : String) (usage_info : Usage)
    (herr : is_error_response response_text usage_info = true)
    (hmiss : CacheManager.get c now prompt model_name = none) :
    cacheAfterCall c now prompt model_name response_text usage_info = c ∧
    CacheManager.get (cacheAfterCall c now prompt model_name response_text usage_info)
      now prompt model_name = none ∧
    (CacheManager.prune_expired c now).1.entries.all
      (fun p => !(CacheManager.is_error_entry p.2)) = true := by
  have hc : cacheAfterCall c now prompt model_name response_text usage_info = c := by
    unfold cacheAfterCall
    rw [herr]
    rfl
  refine ⟨hc, by rw [hc]; exact hmiss, ?_⟩
  rw [List.all_eq_true]
  intro p hp
  unfold CacheManager.prune_expired at hp
  rw [List.mem_filter] at hp
  have hcond := hp.2
  simp only [Bool.and_eq_true] at hcond
  simpa using hcond.2

/-- Witness for C3: a claude error sentinel against a cache already
holding one error-shaped entry under a different key. -/
theorem error_responses_never_cached_witness :
    is_error_response "[claude ERROR]: boom"
        [("error", JVal.jstr "boom"), ("ttfb_seconds", JVal.jnum 0)] = true ∧
    (cacheAfterCall
        ⟨69, [("stale", ⟨"p0", "m", "[ollama ERROR]: down", [], 0, 100⟩)]⟩ 50
        "Alice says hello" "m" "[claude ERROR]: boom"
        [("error", JVal.jstr "boom"), ("ttfb_seconds", JVal.jnum 0)]
      = ⟨69, [("stale", ⟨"p0", "m", "[ollama ERROR]: down", [], 0, 100⟩)]⟩ ∧
    CacheManager.get
        (cacheAfterCall
          ⟨69, [("stale", ⟨"p0", "m", "[ollama ERROR]: down", [], 0, 100⟩)]⟩ 50
          "Alice says hello" "m" "[claude ERROR]: boom"
          [("error", JVal.jstr "boom"), ("ttfb_seconds", JVal.jnum 0)])
        50 "Alice says hello" "m" = none ∧
    (CacheManager.prune_expired
        ⟨69, [("stale", ⟨"p0", "m", "[ollama ERROR]: down", [], 0, 100⟩)]⟩ 50).1.entries.all
      (fun p => !(CacheManager.is_error_entry p.2)) = true) :=
  ⟨by decide,
   error_responses_never_cached
     ⟨69, [("stale", ⟨"p0", "m", "[ollama ERROR]: down", [], 0, 100⟩)]⟩ 50
     "Alice says hello" "m" "[claude ERROR]: boom"
     [("error", JVal.jstr "boom"), ("ttfb_seconds", JVal.jnum 0)]
     (by decide) (by decide)⟩

/-- C4 counterexample: the openai-gpt exception handler returns the
sentinel text with an empty usage dict, so its usage metadata carries no
'error' field, contradicting the claim for that backend variant. -/
theorem openai_error_result_has_no_error_field :
    backendErrorResult Backend.openai_gpt "connection refused"
      = ("[openai-gpt ERROR]: connection refused", []) ∧
    usageGet (backendErrorResult Backend.openai_gpt "connection refused").2 "error"
      = none := by
  decide

/-- C4 amended: every backend converts a failure into the sentinel text
"[modelId ERROR]: message" without raising; claude, gemini, deepseek and
ollama pair it with usage carrying the 'error' message and zero
ttfb_seconds, while openai-gpt pairs it with an empty usage dict. -/
theorem backend_error_sentinel_shape (b : Backend) (msg : String) :
    invokeBackend b (Except.error msg) = backendErrorResult b msg ∧
    (backendErrorResult b msg).1 = "[" ++ modelId b ++ " ERROR]: " ++ msg ∧
    (backendErrorResult b msg).2 =
      (if b = Backend.openai_gpt then []
       else [("error", JVal.jstr msg), ("ttfb_seconds", JVal.jnum 0)]) := by
  cases b <;> exact ⟨rfl, rfl, rfl⟩

/-- C5: with a positive bound of 5 seconds and a wrapped call that takes
10 seconds yet completes, call_with_timeout returns the completed result
unchanged — no timeout failure is surfaced; in general a completed call
passes through for every bound, since the source never inspects the
elapsed time (the countdown thread only prints). -/
theorem call_with_timeout_never_times_out_on_success :
    call_with_timeout (some 5) "claude" 10
        (Except.ok ("All good.", [("total_tokens", JVal.jnum 7)]))
      = CallResult.ok ("All good.", [("total_tokens", JVal.jnum 7)]) ∧
    (∀ (timeout : Option Nat) (model_name : String) (elapsed_seconds : Nat)
       (r : String × Usage),
       call_with_timeout timeout model_name elapsed_seconds (Except.ok r)
         = CallResult.ok r) := by
  refine ⟨by decide, ?_⟩
  intro timeout model_name elapsed_seconds r
  match timeout with
  | none => rfl
  | some 0 => rfl
  | some (t + 1) => rfl

/-- C6 counterexample: the usage-summary entry is logged with sender
"System", which does not start with "SystemCheck", so it is stamped with
a conversation-time value and advances the clock (here from 0 to the
1000 ms duration floor). -/
theorem system_sender_advances_clock :
    (log_usage_summary ⟨1500, 7, 0, [], [], 0⟩ "Token usage summary" "t" 500 1 1).2.conversation_time
      = some 0 ∧
    (log_usage_summary ⟨1500, 7, 0, [], [], 0⟩ "Token usage summary" "t" 500 1 1).1.current_conversation_time
      = 1000 := by
  decide

/-- C6 amended: only senders starting with "SystemCheck" are exempt from
the synthesized clock — such entries carry no conversation-time value
and leave the clock unchanged; an entry from any other sender, including
the final usage summary's "System", is stamped with the post-pause clock
value and strictly advances the clock. -/
theorem system_check_exemption_by_sender (st : ConvState) (sender message : String)
    (model_used : Option String) (usage_info : Option Usage)
    (timestamp : String) (pause var_num var_den : Nat) :
    (pyStartsWith sender "SystemCheck" = true →
       (log_message st sender message model_used usage_info
          timestamp pause var_num var_den).1.current_conversation_time
         = st.current_conversation_time ∧
       (log_message st sender message model_used usage_info
          timestamp pause var_num var_den).2.conversation_time = none) ∧
    (pyStartsWith sender "SystemCheck" = false →
       st.current_conversation_time
         < (log_message st sender message model_used usage_info
              timestamp pause var_num var_den).1.current_conversation_time ∧
       (log_message st sender message model_used usage_info
          timestamp pause var_num var_den).2.conversation_time
         = some (st.current_conversation_time +
             (if st.messages.isEmpty then 0 else pause))) := by
  constructor
  · intro hsys
    simp [log_message, hsys]
  · intro hsys
    have hdur := thousand_le_message_duration message var_num var_den
    refine ⟨?_, ?_⟩
    · by_cases hemp : st.messages.isEmpty <;>
        simp [log_message, hsys, hemp] <;> omega
    · by_cases hemp : st.messages.isEmpty <;>
        simp [log_message, hsys, hemp]

/-- Witness for C6 amended: a SystemCheck goal-check entry leaves the
clock at 0 with no timing value; a "System" summary entry is stamped
with time 0 and advances the clock. -/
theorem system_check_exemption_by_sender_witness :
    ((log_message ⟨1500, 7, 0, [], [], 0⟩ "SystemCheck" "[Goal Check] NO" none none
        "t" 500 1 1).1.current_conversation_time = 0 ∧
     (log_message ⟨1500, 7, 0, [], [], 0⟩ "SystemCheck" "[Goal Check] NO" none none
        "t" 500 1 1).2.conversation_time = none) ∧
    ((0 : Nat) < (log_message ⟨1500, 7, 0, [], [], 0⟩ "System" "Meeting adjourned."
        (some "None") none "t" 500 1 1).1.current_conversation_time ∧
     (log_message ⟨1500, 7, 0, [], [], 0⟩ "System" "Meeting adjourned."
        (some "None") none "t" 500 1 1).2.conversation_time = some 0) :=
  ⟨(system_check_exemption_by_sender ⟨1500, 7, 0, [], [], 0⟩ "SystemCheck"
      "[Goal Check] NO" none none "t" 500 1 1).1 (by decide),
   (system_check_exemption_by_sender ⟨1500, 7, 0, [], [], 0⟩ "System"
      "Meeting adjourned." (some "None") none "t" 500 1 1).2 (by decide)⟩

/-- C7: on a non-empty roster, decide_next_speaker always lands in the
roster, and an unrecognized reply falls back to the first roster name. -/
theorem fallback_speaker_in_roster (character_names : List String)
    (response_text : String) (h : character_names ≠ []) :
    decide_next_speaker character_names response_text ∈ character_names ∧
    (character_names.contains (pyStrip response_text) = false →
       decide_next_speaker character_names response_text
         = character_names.headD "") := by
  unfold decide_next_speaker
  by_cases hc : character_names.contains (pyStrip response_text)
  · rw [if_pos hc]
    refine ⟨?_, fun hfalse => absurd hc (by rw [hfalse]; exact Bool.false_ne_true)⟩
    exact List.mem_of_elem_eq_true hc
  · rw [if_neg hc]
    refine ⟨?_, fun _ => rfl⟩
    match character_names, h with
    | a :: _, _ => exact List.mem_cons_self a _

/-- Witness for C7, the spec's Scenario 3: a "Bob Smith" reply against
the roster Alice, Carol selects Alice. -/
theorem fallback_speaker_in_roster_witness :
    decide_next_speaker ["Alice", "Carol"] "Bob Smith" = "Alice" ∧
    decide_next_speaker ["Alice", "Carol"] "Bob Smith" ∈ ["Alice", "Carol"] :=
  ⟨(fallback_speaker_in_roster ["Alice", "Carol"] "Bob Smith" (by decide)).2 (by decide),
   (fallback_speaker_in_roster ["Alice", "Carol"] "Bob Smith" (by decide)).1⟩

/-- C8: when the stripped closing-check reply is not a roster name,
determine_closing_message yields None and the closing step appends
nothing, leaving the state unchanged. -/
theorem closing_fallback_no_message (character_names : List String)
    (response_text : String) (st : ConvState)
    (closer_model closing_text : String) (usage : Option Usage)
    (timestamp : String) (pause var_num var_den : Nat)
    (h : character_names.contains (pyStrip response_text) = false) :
    determine_closing_message character_names response_text = none ∧
    closing_phase st character_names response_text closer_model closing_text usage
      timestamp pause var_num var_den = st := by
  have hmem : pyStrip response_text ∉ character_names := by simpa using h
  have hd : determine_closing_message character_names response_text = none := by
    unfold determine_closing_message
    by_cases hno : pyContains "NO" (pyUpper response_text) <;>
      simp [hno, hmem]
  exact ⟨hd, by unfold closing_phase; rw [hd]⟩

/-- Witness for C8: a "Bob Smith" closing-check reply against the roster
Alice, Carol produces no closing message and no state change. -/
theorem closing_fallback_no_message_witness :
    determine_closing_message ["Alice", "Carol"] "Bob Smith" = none ∧
    closing_phase ⟨1500, 7, 0, [], [], 0⟩ ["Alice", "Carol"] "Bob Smith" "claude"
      "Farewell." none "t" 500 1 1 = ⟨1500, 7, 0, [], [], 0⟩ :=
  closing_fallback_no_message ["Alice", "Carol"] "Bob Smith" ⟨1500, 7, 0, [], [], 0⟩
    "claude" "Farewell." none "t" 500 1 1 (by decide)

/-- C9: a lookup misses when the key is absent or the entry's expiry is
not in the future, hits with the stored response and cached-tagged usage
when the expiry is in the future, and the pruning pass keeps only
entries whose expiry is in the future. -/
theorem cache_get_absent_expired_hit (c : CacheData) (now : ℚ)
    (prompt model_name : String) :
    (entriesFind c.entries (CacheManager.generate_hash c.cache_seed prompt model_name)
        = none →
       CacheManager.get c now prompt model_name = none) ∧
    (∀ e, entriesFind c.entries
          (CacheManager.generate_hash c.cache_seed prompt model_name) = some e →
       e.expires_at ≤ now →
       CacheManager.get c now prompt model_name = none) ∧
    (∀ e, entriesFind c.entries
          (CacheManager.generate_hash c.cache_seed prompt model_name) = some e →
       now < e.expires_at →
       CacheManager.get c now prompt model_name
         = some (e.response, usageSet e.usage_info "cached" (JVal.jbool true))) ∧
    (CacheManager.prune_expired c now).1.entries.all
      (fun p => decide (now < p.2.expires_at)) = true := by
  refine ⟨?_, ?_, ?_, ?_⟩
  · intro habs
    unfold CacheManager.get
    rw [habs]
  · intro e he hexp
    unfold CacheManager.get
    rw [he]
    exact if_neg (not_lt.mpr hexp)
  · intro e he hlive
    unfold CacheManager.get
    rw [he]
    exact if_pos hlive
  · rw [List.all_eq_true]
    intro p hp
    unfold CacheManager.prune_expired at hp
    rw [List.mem_filter] at hp
    have hcond := hp.2
    simp only [Bool.and_eq_true] at hcond
    have hkeep := hcond.1
    simp only [Bool.not_eq_true', decide_eq_false_iff_not, not_le] at hkeep
    simpa using hkeep

/-- Witness for C9, in the spirit of the spec's Scenario 1: with seed 69
a live "Alice says hello" entry hits with cached-tagged usage, an
expired entry and an absent key miss, and pruning keeps only the live
entry. -/
theorem cache_get_absent_expired_hit_witness :
    CacheManager.get
        ⟨69, [(CacheManager.generate_hash 69 "Alice says hello" "m",
               ⟨"Alice says hello", "m", "Hi", [("total_tokens", JVal.jnum 5)], 0, 100⟩),
              (CacheManager.generate_hash 69 "old prompt" "m",
               ⟨"old prompt", "m", "Old", [], 0, 10⟩)]⟩
        50 "Alice says hello" "m"
      = some ("Hi", [("total_tokens", JVal.jnum 5), ("cached", JVal.jbool true)]) ∧
    CacheManager.get
        ⟨69, [(CacheManager.generate_hash 69 "Alice says hello" "m",
               ⟨"Alice says hello", "m", "Hi", [("total_tokens", JVal.jnum 5)], 0, 100⟩),
              (CacheManager.generate_hash 69 "old prompt" "m",
               ⟨"old prompt", "m", "Old", [], 0, 10⟩)]⟩
        50 "old prompt" "m" = none ∧
    CacheManager.get
        ⟨69, [(CacheManager.generate_hash 69 "Alice says hello" "m",
               ⟨"Alice says hello", "m", "Hi", [("total_tokens", JVal.jnum 5)], 0, 100⟩),
              (CacheManager.generate_hash 69 "old prompt" "m",
               ⟨"old prompt", "m", "Old", [], 0, 10⟩)]⟩
        50 "absent prompt" "m" = none ∧
    (CacheManager.prune_expired
        ⟨69, [(CacheManager.generate_hash 69 "Alice says hello" "m",
               ⟨"Alice says hello", "m", "Hi", [("total_tokens", JVal.jnum 5)], 0, 100⟩),
              (CacheManager.generate_hash 69 "old prompt" "m",
               ⟨"old prompt", "m", "Old", [], 0, 10⟩)]⟩ 50).1.entries.all
      (fun p => decide ((50 : ℚ) < p.2.expires_at)) = true :=
  ⟨(cache_get_absent_expired_hit _ 50 "Alice says hello" "m").2.2.1
     ⟨"Alice says hello", "m", "Hi", [("total_tokens", JVal.jnum 5)], 0, 100⟩
     (by decide) (by decide),
   (cache_get_absent_expired_hit _ 50 "old prompt" "m").2.1
     ⟨"old prompt", "m", "Old", [], 0, 10⟩ (by decide) (by decide),
   (cache_get_absent_expired_hit _ 50 "absent prompt" "m").1 (by decide),
   (cache_get_absent_expired_hit _ 50 "absent prompt" "m").2.2.2⟩

/-- C10: any closing-check reply whose upper-cased text contains "NO"
yields no closing message, even a reply that is exactly a roster name
such as "Nora". -/
theorem closing_no_short_circuit (character_names : List String)
    (response_text : String)
    (h : pyContains "NO" (pyUpper response_text) = true) :
    determine_closing_message character_names response_text = none := by
  unfold determine_closing_message
  rw [h]
  rfl

/-- Witness for C10: "Nora" is a roster name, its upper-casing contains
"NO", and it is rejected as closing speaker. -/
theorem closing_no_short_circuit_witness :
    pyContains "NO" (pyUpper "Nora") = true ∧
    ["Nora", "Alice"].contains (pyStrip "Nora") = true ∧
    determine_closing_message ["Nora", "Alice"] "Nora" = none :=
  ⟨by decide, by decide, closing_no_short_circuit ["Nora", "Alice"] "Nora" (by decide)⟩

end AideepSpeak
